import Mathlib

/-!
Shallow embedding of the Windcave-NetSuite settlement reconciliation system.

Sources embedded here:
* `windcave_constants.js` (src/unnamed/part_001, constants section) -> `Windcave.Constants`
* `windcave_reconciliation_lib.js` (src/src/FileCabinet/SuiteScripts/Windcave/) -> `Windcave.ReconLib`
* the enhanced reconciliation library embedded in `src/INSTALL.md` (lines 527-2057) -> `Windcave.InstallLib`
* the Windcave API module embedded in `src/INSTALL.md` (lines 274-527) -> `Windcave.ApiModule`
* `windcave_settlement_scheduled.js` (repo root variant) -> `Windcave.Scheduled`

JavaScript numbers that carry money amounts are modelled as exact rationals;
NetSuite string-typed booleans keep their string representation; values whose
JavaScript type can vary (the `undepfunds` column) are modelled by `JSVal`.
The NetSuite persistence store is modelled by an explicit `Store` state that is
threaded through every function that performs `record.save` / `record.submitFields`.
-/

namespace Windcave

/-! ### Constants (`windcave_constants.js`) -/

namespace Constants

def SETTLEMENT_STATUS_DONE : String := "Done"

def CRDR_CREDIT : String := "CR"

def CRDR_DEBIT : String := "DR"

def TRANSACTION_TYPES_REFUND : String := "Refund"

def ERRORS_NO_MATCHING_PAYMENT : String := "No matching NetSuite payment found"

def ERRORS_PAYMENT_ALREADY_DEPOSITED : String := "Payment has already been deposited"

def ERRORS_AMOUNT_MISMATCH : String := "Transaction amount does not match payment amount"

def ERRORS_API_AUTH_FAILED : String := "Windcave API authentication failed"

def ERRORS_API_REQUEST_FAILED : String := "Windcave API request failed"

def AMOUNT_TOLERANCE : ℚ := 1 / 100

def MAX_API_RETRIES : Nat := 3

def RETRY_DELAY_MS : Nat := 1000

end Constants

/-! ### Data model -/

/-- A JavaScript value as it can appear in the duck-typed `undepositedFunds`
field: a string (what `search.Result.getValue` returns for a checkbox column),
a genuine boolean, or absent (`undefined`). -/
inductive JSVal where
  | str (s : String)
  | bool (b : Bool)
  | undef
deriving DecidableEq, Repr

/-- The object built by `findNetSuiteTransaction` /
`findNetSuiteTransactionByAuthCode` from a search result row. -/
structure NsTransaction where
  internalId : String
  tranId : String
  amount : ℚ
  undepositedFunds : JSVal
deriving DecidableEq, Repr

/-- One Windcave transaction from a settlement detail response.  Absent
optional strings are represented by `""` (falsy in JavaScript). -/
structure WindcaveTxn where
  id : String
  merchantReference : String
  amount : ℚ
  type : String
  authCode : String
deriving DecidableEq, Repr

/-- Result object of `validatePaymentForDeposit`. -/
structure ValidationResult where
  isValid : Bool
  error : Option String
deriving DecidableEq, Repr

/-- A persisted Windcave Transaction Detail custom record
(`customrecord` rows created by `createTransactionDetailRecord` and
mutated by `record.submitFields`). -/
structure TxnDetail where
  parentSettlement : Nat
  txn : WindcaveTxn
  nsTransaction : Option String
  matched : Bool
  matchError : Option String
  inDeposit : Bool
  bankDeposit : Option Nat
deriving DecidableEq, Repr

/-- A persisted Windcave Settlement custom record. -/
structure SettlementRec where
  settlementId : String
  referenceNumber : String
  matchedCount : Nat
  unmatchedCount : Nat
  matchedAmount : ℚ
  processed : Bool
  bankDeposit : Option Nat
  errorMessage : Option String
deriving DecidableEq, Repr

/-- A saved NetSuite Bank Deposit record: the payment internal ids whose
`deposit` checkbox was ticked before `save`. -/
structure DepositRecord where
  account : String
  memo : String
  payments : List String
deriving DecidableEq, Repr

/-- The persistence store.  `settlementRecords` and `txnDetails` use the list
index as the NetSuite internal id; a deposit saved as element `k` has internal
id `k + 1` (NetSuite ids are positive, and `updateSettlementRecord` tests the
deposit id for truthiness).  `undepositedPayments` is the ledger-owned set of
payment internal ids currently sitting in Undeposited Funds: it is what the
platform renders as the `payment` sublist of a freshly created Deposit
record. -/
structure Store where
  settlementRecords : List SettlementRec
  txnDetails : List TxnDetail
  deposits : List DepositRecord
  undepositedPayments : List String
deriving DecidableEq, Repr

/-- `modifyAt l i f` applies `f` to element `i` of `l` (models
`record.submitFields` on the record with internal id `i`). -/
def modifyAt {α : Type} (l : List α) (i : Nat) (f : α → α) : List α :=
  match l, i with
  | [], _ => []
  | x :: xs, 0 => f x :: xs
  | x :: xs, Nat.succ n => x :: modifyAt xs n f

/-- `Math.abs` on an exact rational. -/
def mathAbs (x : ℚ) : ℚ := if x < 0 then -x else x

/-- Settlement data as returned by the Windcave API (`getSettlements` /
`getSettlementDetails`). -/
structure Settlement where
  id : String
  status : String
  CRDR : String
  amount : ℚ
  referenceNumber : String
  transactions : List WindcaveTxn
deriving DecidableEq, Repr

/-! ### `windcave_reconciliation_lib.js` (plain library under src/src/) -/

namespace ReconLib

open Constants

/-- `isSettlementProcessed`: searches Windcave Settlement records whose
`SETTLEMENT_ID` field equals `settlementId` and reports whether any exists. -/
def isSettlementProcessed (st : Store) (settlementId : String) : Bool :=
  st.settlementRecords.any (fun r => r.settlementId = settlementId)

/-- `createSettlementRecord`: saves a new Windcave Settlement record from the
API settlement data and returns its internal id (the index of the new row). -/
def createSettlementRecord (settlementData : Settlement) (st : Store) : Store × Nat :=
  ({ st with settlementRecords := st.settlementRecords ++
      [{ settlementId := settlementData.id
         referenceNumber := settlementData.referenceNumber
         matchedCount := 0
         unmatchedCount := 0
         matchedAmount := 0
         processed := false
         bankDeposit := none
         errorMessage := none }] },
   st.settlementRecords.length)

/-- `createTransactionDetailRecord`: saves a new Windcave Transaction Detail
record for `transactionData` under settlement `settlementInternalId` and
returns its internal id. -/
def createTransactionDetailRecord (transactionData : WindcaveTxn)
    (settlementInternalId : Nat) (st : Store) : Store × Nat :=
  ({ st with txnDetails := st.txnDetails ++
      [{ parentSettlement := settlementInternalId
         txn := transactionData
         nsTransaction := none
         matched := false
         matchError := none
         inDeposit := false
         bankDeposit := none }] },
   st.txnDetails.length)

/-- `record.submitFields` on one Transaction Detail record. -/
def updateTxnDetail (st : Store) (i : Nat) (f : TxnDetail → TxnDetail) : Store :=
  { st with txnDetails := modifyAt st.txnDetails i f }

/-- `validatePaymentForDeposit` (lib version, lines 342-371): rules evaluated
in order, first failure wins. -/
def validatePaymentForDeposit (nsTransaction : Option NsTransaction)
    (windcaveTxn : WindcaveTxn) : ValidationResult :=
  match nsTransaction with
  | none => { isValid := false, error := some ERRORS_NO_MATCHING_PAYMENT }
  | some ns =>
    if ns.undepositedFunds = JSVal.str "F" then
      { isValid := false, error := some ERRORS_PAYMENT_ALREADY_DEPOSITED }
    else if mathAbs (ns.amount - windcaveTxn.amount) > AMOUNT_TOLERANCE then
      { isValid := false,
        error := some (ERRORS_AMOUNT_MISMATCH ++ " (NS: " ++ toString ns.amount ++
          ", WC: " ++ toString windcaveTxn.amount ++ ")") }
    else
      { isValid := true, error := none }

/-- One entry of the `matched` array built by `matchTransactions`. -/
structure MatchedEntry where
  txnDetailId : Nat
  windcaveTxn : WindcaveTxn
  nsTransaction : NsTransaction
deriving DecidableEq, Repr

/-- One entry of the `unmatched` array built by `matchTransactions`. -/
structure UnmatchedEntry where
  txnDetailId : Nat
  windcaveTxn : WindcaveTxn
  error : String
deriving DecidableEq, Repr

/-- The body of the `for (const txn of transactions)` loop of
`matchTransactions` (lib version, lines 383-448).  `findNS` stands for the
ledger query performed by `findNetSuiteTransaction`, keyed by the
transaction's `merchantReference`. -/
def processOneTxn (findNS : String → Option NsTransaction)
    (settlementInternalId : Nat) (txn : WindcaveTxn) (st : Store) :
    Store × (MatchedEntry ⊕ UnmatchedEntry) :=
  let created := createTransactionDetailRecord txn settlementInternalId st
  let st1 := created.1
  let txnDetailId := created.2
  if txn.type = TRANSACTION_TYPES_REFUND then
    (st1, Sum.inr { txnDetailId := txnDetailId, windcaveTxn := txn,
                    error := "Refund transactions require manual handling" })
  else
    match findNS txn.merchantReference with
    | none =>
      let validation := validatePaymentForDeposit none txn
      (updateTxnDetail st1 txnDetailId (fun d => { d with matchError := validation.error }),
       Sum.inr { txnDetailId := txnDetailId, windcaveTxn := txn,
                 error := validation.error.getD "" })
    | some ns =>
      let validation := validatePaymentForDeposit (some ns) txn
      if validation.isValid then
        (updateTxnDetail st1 txnDetailId
           (fun d => { d with nsTransaction := some ns.internalId, matched := true }),
         Sum.inl { txnDetailId := txnDetailId, windcaveTxn := txn, nsTransaction := ns })
      else
        (updateTxnDetail st1 txnDetailId (fun d => { d with matchError := validation.error }),
         Sum.inr { txnDetailId := txnDetailId, windcaveTxn := txn,
                   error := validation.error.getD "" })

/-- `matchTransactions` (lib version): iterates the settlement's transactions,
persisting a Transaction Detail record for each one and partitioning them into
the `matched` / `unmatched` result arrays (in input order). -/
def matchTransactions (findNS : String → Option NsTransaction)
    (transactions : List WindcaveTxn) (settlementInternalId : Nat) (st : Store) :
    Store × List MatchedEntry × List UnmatchedEntry :=
  match transactions with
  | [] => (st, [], [])
  | txn :: rest =>
    let step := processOneTxn findNS settlementInternalId txn st
    let tail := matchTransactions findNS rest settlementInternalId step.1
    match step.2 with
    | Sum.inl m => (tail.1, m :: tail.2.1, tail.2.2)
    | Sum.inr u => (tail.1, tail.2.1, u :: tail.2.2)

/-- `createBankDeposit` (lib version, lines 461-577).  The `payment` sublist of
the freshly created Deposit record is `st.undepositedPayments`; a line is
selected exactly when `matchedTransactions.find` locates a matched transaction
whose NetSuite internal id equals the line's payment id.  Returns the new
deposit's internal id, or `none` when nothing was deposited. -/
def createBankDeposit (settlementData : Settlement)
    (matchedTransactions : List MatchedEntry) (bankAccountId : String)
    (st : Store) : Store × Option Nat :=
  if matchedTransactions.isEmpty then
    (st, none)
  else
    let selected := st.undepositedPayments.filter (fun paymentId =>
      (matchedTransactions.find? (fun m => m.nsTransaction.internalId = paymentId)).isSome)
    let addedTxnDetailIds := st.undepositedPayments.filterMap (fun paymentId =>
      (matchedTransactions.find? (fun m => m.nsTransaction.internalId = paymentId)).map
        (fun m => m.txnDetailId))
    if selected.length = 0 then
      (st, none)
    else
      let depositId := st.deposits.length + 1
      let st1 := { st with deposits := st.deposits ++
        [{ account := bankAccountId
           memo := "Windcave Settlement " ++ settlementData.referenceNumber ++
             " (" ++ settlementData.id ++ ")"
           payments := selected }] }
      let st2 := addedTxnDetailIds.foldl
        (fun s txnDetailId => updateTxnDetail s txnDetailId
          (fun d => { d with inDeposit := true, bankDeposit := some depositId })) st1
      (st2, some depositId)

/-- `updateSettlementRecord` (lib version, lines 589-626): `record.submitFields`
on the settlement record; the bank-deposit and error-message fields are present
in the update object only when their values are truthy. -/
def updateSettlementRecord (st : Store) (settlementInternalId : Nat)
    (matchedCount unmatchedCount : Nat) (matchedAmount : ℚ)
    (bankDepositId : Option Nat) (errorMessage : Option String) : Store :=
  { st with settlementRecords := (modifyAt st.settlementRecords settlementInternalId
      (fun r =>
        { r with
          matchedCount := matchedCount
          unmatchedCount := unmatchedCount
          matchedAmount := matchedAmount
          processed := true
          bankDeposit := (match bankDepositId with
            | some d => some d
            | none => r.bankDeposit)
          errorMessage := (match errorMessage with
            | some m => some m
            | none => r.errorMessage) })) }

/-- `getSettlementById`: `record.load` of a settlement record, `none` when the
load throws. -/
def getSettlementById (st : Store) (settlementInternalId : Nat) : Option SettlementRec :=
  st.settlementRecords[settlementInternalId]?

/-- `getMatchedNotDepositedTransactions` (lines 1026-1056): Transaction Detail
records of the settlement with `MATCHED = T` and `IN_DEPOSIT = F`, as pairs of
internal id and record. -/
def getMatchedNotDepositedTransactions (st : Store) (settlementInternalId : Nat) :
    List (Nat × TxnDetail) :=
  st.txnDetails.enum.filter (fun p =>
    p.2.parentSettlement = settlementInternalId ∧ p.2.matched = true ∧ p.2.inDeposit = false)

/-- Result object of `createSupplementaryDeposit`. -/
inductive SuppResult where
  | success (depositId : Nat) (paymentsAdded : Nat)
  | failure (error : String)
deriving DecidableEq, Repr

/-- `createSupplementaryDeposit` (lines 1064-1176): groups the settlement's
matched-but-not-deposited Transaction Details into a new deposit, surfacing
each failure as a structured error result. -/
def createSupplementaryDeposit (settlementInternalId : Nat) (bankAccountId : String)
    (st : Store) : Store × SuppResult :=
  match getSettlementById st settlementInternalId with
  | none => (st, SuppResult.failure "Settlement not found")
  | some settlement =>
    let pendingTransactions := getMatchedNotDepositedTransactions st settlementInternalId
    if pendingTransactions.isEmpty then
      (st, SuppResult.failure "No matched transactions pending deposit")
    else
      let selectedPairs := st.undepositedPayments.filterMap (fun paymentId =>
        (pendingTransactions.find? (fun t => t.2.nsTransaction = some paymentId)).map
          (fun t => (paymentId, t.1)))
      if selectedPairs.length = 0 then
        (st, SuppResult.failure
          "No payments found in undeposited funds. Payments may have already been deposited elsewhere.")
      else
        let depositId := st.deposits.length + 1
        let st1 := { st with deposits := st.deposits ++
          [{ account := bankAccountId
             memo := "Windcave Settlement " ++
               (if settlement.referenceNumber = "" then settlement.settlementId
                else settlement.referenceNumber) ++ " - Supplementary Deposit"
             payments := selectedPairs.map (fun p => p.1) }] }
        let st2 := (selectedPairs.map (fun p => p.2)).foldl
          (fun s txnDetailId => updateTxnDetail s txnDetailId
            (fun d => { d with inDeposit := true, bankDeposit := some depositId })) st1
        (st2, SuppResult.success depositId selectedPairs.length)

end ReconLib

/-! ### Enhanced reconciliation library embedded in `src/INSTALL.md` -/

namespace InstallLib

open Constants

/-- JavaScript `x || 'none'` on a string (empty string is falsy). -/
def jsOr (s d : String) : String := if s = "" then d else s

/-- `pat.isPrefixOf l ||` recursion: whether `pat` occurs as a contiguous
sublist of `l` (models JavaScript `String.indexOf(pat) >= 0`). -/
def containsSub (pat : List Char) : List Char → Bool
  | [] => pat.isEmpty
  | c :: rest => pat.isPrefixOf (c :: rest) || containsSub pat rest

/-- `accountName.toLowerCase().indexOf('undeposited') >= 0`, the check the
enhanced library uses to derive the `undepositedFunds` flag from the payment's
account classification. -/
def isUndepositedAccount (accountName : String) : Bool :=
  containsSub "undeposited".toList accountName.toLower.toList

/-- A Customer Payment row as stored in the ledger, with the columns the
auth-code search filters on and reads. -/
structure PaymentRecord where
  internalId : String
  tranId : String
  amount : ℚ
  accountName : String
  authCode : String
  pnref : String
deriving DecidableEq, Repr

/-- Builds the `NsTransaction` object the enhanced library returns from a
search result row (`undepositedFunds := isUndep ? 'T' : 'F'`). -/
def toNsTransaction (r : PaymentRecord) : NsTransaction :=
  { internalId := r.internalId
    tranId := r.tranId
    amount := r.amount
    undepositedFunds := JSVal.str (if isUndepositedAccount r.accountName then "T" else "F") }

/-- The `authcode OR pnrefnum` search of `findNetSuiteTransactionByAuthCode`,
with its `getRange(0, 10)` result window.  A filter term is included only for
a key that is present (non-blank). -/
def queryByAuthCode (ledger : List PaymentRecord) (authCode : String)
    (transactionId : String) : List PaymentRecord :=
  (ledger.filter (fun r =>
    (¬ authCode.trim = "" ∧ r.authCode = authCode) ∨
    (¬ transactionId.trim = "" ∧ r.pnref = transactionId))).take 10

/-- The amount check of the candidate loop:
`Math.abs(txnAmount - amount) <= tolerance`. -/
def withinTolerance (amount : ℚ) (r : PaymentRecord) : Bool :=
  mathAbs (r.amount - amount) ≤ AMOUNT_TOLERANCE

/-- The selection logic of `findNetSuiteTransactionByAuthCode` applied to the
returned candidate window: first candidate within `AMOUNT_TOLERANCE` of the
transaction amount wins; failing that a sole candidate is accepted; otherwise
the lookup fails. -/
def selectCandidate (results : List PaymentRecord) (amount : ℚ) : Option NsTransaction :=
  if results.isEmpty then none
  else
    match results.find? (withinTolerance amount) with
    | some r => some (toNsTransaction r)
    | none =>
      match results with
      | [r] => some (toNsTransaction r)
      | _ => none

/-- `findNetSuiteTransactionByAuthCode` (INSTALL.md lines 925-1023). -/
def findNetSuiteTransactionByAuthCode (ledger : List PaymentRecord)
    (authCode : String) (amount : ℚ) (transactionId : String) : Option NsTransaction :=
  if authCode.trim = "" ∧ transactionId.trim = "" then none
  else selectCandidate (queryByAuthCode ledger authCode transactionId) amount

/-- The locator strategy chain of the enhanced `matchTransactions`
(INSTALL.md lines 1096-1113): reference lookup first, then the auth-code /
pnref fallback, gated on the primary miss and on at least one key being
present (truthy). -/
def locateEntry (refLookup : String → Option NsTransaction)
    (ledger : List PaymentRecord) (txn : WindcaveTxn) : Option NsTransaction :=
  match refLookup txn.merchantReference with
  | some ns => some ns
  | none =>
    if ¬ txn.authCode = "" ∨ ¬ txn.id = "" then
      findNetSuiteTransactionByAuthCode ledger txn.authCode txn.amount txn.id
    else none

/-- `validatePaymentForDeposit` (enhanced version, INSTALL.md lines 1031-1066):
identical rule order to the lib version, with diagnostic search keys in the
no-match reason and the payment number in the already-deposited reason. -/
def validatePaymentForDeposit (nsTransaction : Option NsTransaction)
    (windcaveTxn : WindcaveTxn) : ValidationResult :=
  match nsTransaction with
  | none =>
    { isValid := false
      error := some (ERRORS_NO_MATCHING_PAYMENT ++
        " (searched: docNum=" ++ jsOr windcaveTxn.merchantReference "none" ++
        ", authCode=" ++ jsOr windcaveTxn.authCode "none" ++
        ", pnref=" ++ jsOr windcaveTxn.id "none" ++ ")") }
  | some ns =>
    if ns.undepositedFunds = JSVal.str "F" then
      { isValid := false
        error := some (ERRORS_PAYMENT_ALREADY_DEPOSITED ++
          " (Payment #" ++ ns.tranId ++ ")") }
    else if mathAbs (ns.amount - windcaveTxn.amount) > AMOUNT_TOLERANCE then
      { isValid := false
        error := some (ERRORS_AMOUNT_MISMATCH ++ " (NS: " ++ toString ns.amount ++
          ", WC: " ++ toString windcaveTxn.amount ++ ")") }
    else
      { isValid := true, error := none }

end InstallLib

/-! ### Windcave API module embedded in `src/INSTALL.md` (`makeRequest`) -/

namespace ApiModule

open Constants

/-- Outcome of one `https.get` call: an HTTP response, or the governed
request-timeout error (`SSS_REQUEST_TIME_EXCEEDED`). -/
inductive HttpOutcome where
  | response (code : Nat) (body : String)
  | timeout
deriving DecidableEq, Repr

/-- The error finally thrown by `makeRequest`. -/
inductive ApiError where
  | authFailed (body : String)
  | requestFailed (code : Nat) (body : String)
  | timedOut
deriving DecidableEq, Repr

/-- What one `makeRequest` call performs: its final result, the number of
HTTP calls it made, and the busy-wait delays (in ms) it inserted before each
5xx retry. -/
structure RequestTrace where
  result : Except ApiError String
  attempts : Nat
  delays : List Nat
deriving Repr

/-- `makeRequest` (INSTALL.md lines 321-400), with the network modelled as a
function from attempt index (`retryCount`) to HTTP outcome.  2xx returns the
body; 401/403 throws the auth error with no retry; 5xx retries with a linear
`RETRY_DELAY_MS * (retryCount + 1)` busy-wait while `retryCount` is below
`MAX_API_RETRIES`; any other status throws immediately; a request timeout
retries (without delay) under the same cap. -/
def makeRequest (resp : Nat → HttpOutcome) (retryCount : Nat) : RequestTrace :=
  match resp retryCount with
  | HttpOutcome.response code body =>
    if 200 ≤ code ∧ code < 300 then
      { result := Except.ok body, attempts := 1, delays := [] }
    else if code = 401 ∨ code = 403 then
      { result := Except.error (ApiError.authFailed body), attempts := 1, delays := [] }
    else if h : 500 ≤ code ∧ retryCount < MAX_API_RETRIES then
      let rest := makeRequest resp (retryCount + 1)
      { result := rest.result, attempts := rest.attempts + 1,
        delays := RETRY_DELAY_MS * (retryCount + 1) :: rest.delays }
    else
      { result := Except.error (ApiError.requestFailed code body), attempts := 1, delays := [] }
  | HttpOutcome.timeout =>
    if h : retryCount < MAX_API_RETRIES then
      let rest := makeRequest resp (retryCount + 1)
      { result := rest.result, attempts := rest.attempts + 1, delays := rest.delays }
    else
      { result := Except.error ApiError.timedOut, attempts := 1, delays := [] }
termination_by MAX_API_RETRIES + 1 - retryCount
decreasing_by
  all_goals
    simp only [MAX_API_RETRIES] at *
    omega

end ApiModule

/-! ### `windcave_settlement_scheduled.js` (Batch Coordinator) -/

namespace Scheduled

open Constants

/-- One active Windcave configuration as loaded by `loadAllConfigurations`.
`notificationEmail = none` models a blank (falsy) field. -/
structure Config where
  internalId : Nat
  name : String
  merchantId : String
  bankAccount : String
  notificationEmail : Option String
deriving DecidableEq, Repr

/-- The mutable `processingResults` aggregate of `execute`. -/
structure RunResults where
  settlementsProcessed : Nat
  settlementsSkipped : Nat
  totalMatched : Nat
  totalUnmatched : Nat
  totalAmount : ℚ
  depositsCreated : Nat
  errors : List String
deriving DecidableEq, Repr

/-- Fresh `processingResults` counters at the start of a run. -/
def emptyResults : RunResults :=
  { settlementsProcessed := 0, settlementsSkipped := 0, totalMatched := 0,
    totalUnmatched := 0, totalAmount := 0, depositsCreated := 0, errors := [] }

/-- The non-skip branch of `processSettlement`: persists the settlement
record, matches its transactions, conditionally creates a bank deposit for
credit settlements, and writes the result counts back.  Returns the updated
store, the updated `processingResults`, and the per-settlement result. -/
def processSettlementBody (findNS : String → Option NsTransaction)
    (bankAccount : String) (settlement : Settlement) (st : Store)
    (results : RunResults) : Store × RunResults × Option (Nat × Nat) :=
    let created := ReconLib.createSettlementRecord settlement st
    let st1 := created.1
    let settlementInternalId := created.2
    let matchResults := ReconLib.matchTransactions findNS settlement.transactions
      settlementInternalId st1
    let st2 := matchResults.1
    let matchedList := matchResults.2.1
    let unmatchedList := matchResults.2.2
    let matchedAmount := (matchedList.map (fun m => m.windcaveTxn.amount)).sum
    let deposited :=
      if settlement.CRDR = CRDR_CREDIT ∧ ¬ matchedList.isEmpty then
        ReconLib.createBankDeposit settlement matchedList bankAccount st2
      else (st2, none)
    let st3 := deposited.1
    let bankDepositId := deposited.2
    let errorMessage : Option String :=
      if unmatchedList.isEmpty then none
      else some ("Unmatched transactions:\n" ++ String.intercalate "\n"
        (unmatchedList.map (fun u => "Txn " ++ u.windcaveTxn.id ++ ": " ++ u.error)))
    let st4 := ReconLib.updateSettlementRecord st3 settlementInternalId
      matchedList.length unmatchedList.length matchedAmount bankDepositId errorMessage
    (st4,
     { results with
        settlementsProcessed := results.settlementsProcessed + 1
        totalMatched := results.totalMatched + matchedList.length
        totalUnmatched := results.totalUnmatched + unmatchedList.length
        totalAmount := results.totalAmount + settlement.amount
        depositsCreated := results.depositsCreated +
          (if bankDepositId.isSome then 1 else 0) },
     some (matchedList.length, unmatchedList.length))

/-- `processSettlement` (windcave_settlement_scheduled.js lines 215-326):
skips (counting the settlement as skipped, without error) when the status is
not `Done` or a settlement record with the same Windcave id already exists;
otherwise runs `processSettlementBody`. -/
def processSettlement (findNS : String → Option NsTransaction)
    (bankAccount : String) (settlement : Settlement) (st : Store)
    (results : RunResults) : Store × RunResults × Option (Nat × Nat) :=
  if ¬ settlement.status = SETTLEMENT_STATUS_DONE then
    (st, { results with settlementsSkipped := results.settlementsSkipped + 1 }, none)
  else if ReconLib.isSettlementProcessed st settlement.id then
    (st, { results with settlementsSkipped := results.settlementsSkipped + 1 }, none)
  else
    processSettlementBody findNS bankAccount settlement st results

/-- The per-settlement loop of `execute` for one configuration's fetched
settlement list. -/
def runSettlements (findNS : String → Option NsTransaction) (bankAccount : String)
    (settlements : List Settlement) (st : Store) (results : RunResults) :
    Store × RunResults :=
  match settlements with
  | [] => (st, results)
  | s :: rest =>
    let step := processSettlement findNS bankAccount s st results
    runSettlements findNS bankAccount rest step.1 step.2.1

/-- Any number of coordinator runs over the same persistent store: each run
processes its own fetched settlement list (date ranges may overlap, so the
same settlement can appear in several runs) starting from fresh counters. -/
def runMany (findNS : String → Option NsTransaction) (bankAccount : String)
    (runs : List (List Settlement)) (st : Store) : Store :=
  match runs with
  | [] => st
  | settlements :: rest =>
    runMany findNS bankAccount rest
      (runSettlements findNS bankAccount settlements st emptyResults).1

/-- Number of persisted settlement records carrying the Windcave external id
`settlementId`. -/
def settlementRecordCount (st : Store) (settlementId : String) : Nat :=
  (st.settlementRecords.filter (fun r => r.settlementId = settlementId)).length

/-- The `notificationEmails` set of `execute` (lines 46, 90-92): addresses are
added in configuration order, each at most once (JavaScript `Set` semantics);
the send loop (lines 174-176) then sends exactly one summary email per
element. -/
def addEmail (acc : List String) (e : String) : List String :=
  if acc.contains e then acc else acc ++ [e]

def collectNotificationEmails (configs : List Config) : List String :=
  configs.foldl (fun acc c =>
    match c.notificationEmail with
    | some e => addEmail acc e
    | none => acc) []

/-- The per-configuration entry of `processingResults.configResults`. -/
structure ConfigResult where
  configName : String
  merchantId : String
  settlementsFound : Nat
  settlementsProcessed : Nat
  matched : Nat
  unmatched : Nat
  errors : List String
deriving DecidableEq, Repr

/-- The fields of `processingResults` that `sendNotificationEmail` reads. -/
structure SummaryResults where
  configurationsProcessed : Nat
  settlementsFound : Nat
  settlementsProcessed : Nat
  settlementsSkipped : Nat
  totalMatched : Nat
  totalUnmatched : Nat
  depositsCreated : Nat
  errors : List String
  configResults : List ConfigResult
deriving DecidableEq, Repr

/-- The sections of the plain-text body built by `sendNotificationEmail`,
in the order the code appends them. -/
inductive EmailSection where
  | header
  | overallResults
  | transactionMatching
  | configBreakdown
  | errorItems
  | unmatchedNote
  | footer
deriving DecidableEq, Repr

/-- The body assembly of `sendNotificationEmail` (lines 333-394): the
`Results by Configuration` breakdown is appended exactly when more than one
configuration result was recorded, the error list exactly when errors exist,
and the manual-review note exactly when unmatched transactions exist. -/
def buildEmailBody (results : SummaryResults) : List EmailSection :=
  [EmailSection.header, EmailSection.overallResults, EmailSection.transactionMatching]
  ++ (if 1 < results.configResults.length then [EmailSection.configBreakdown] else [])
  ++ (if results.errors.isEmpty then [] else [EmailSection.errorItems])
  ++ (if 0 < results.totalUnmatched then [EmailSection.unmatchedNote] else [])
  ++ [EmailSection.footer]

end Scheduled

end Windcave

/-! ## Theorems about the embedded program -/

namespace Windcave

/-- `Math.abs` agrees with the mathematical absolute value on ℚ. -/
theorem mathAbs_eq_abs (x : ℚ) : mathAbs x = |x| := by
  by_cases h : x < 0
  · simp [mathAbs, h, abs_of_neg h]
  · simp [mathAbs, h, abs_of_nonneg (le_of_not_lt h)]

/-- Claim C2: `validatePaymentForDeposit` evaluates its rules in a fixed order
with the first failure winning: a null entry is invalid with the
no-matching-payment reason including the three search keys; otherwise an entry
no longer in undeposited funds is invalid with the already-deposited reason;
otherwise an absolute amount difference above the tolerance is invalid with an
amount-mismatch reason naming both amounts; otherwise the result is valid with
no error. -/
theorem claim_C2_validator_rule_order :
    (∀ txn : WindcaveTxn,
      InstallLib.validatePaymentForDeposit none txn =
        { isValid := false
          error := some (Constants.ERRORS_NO_MATCHING_PAYMENT ++
            " (searched: docNum=" ++ InstallLib.jsOr txn.merchantReference "none" ++
            ", authCode=" ++ InstallLib.jsOr txn.authCode "none" ++
            ", pnref=" ++ InstallLib.jsOr txn.id "none" ++ ")") }) ∧
    (∀ (ns : NsTransaction) (txn : WindcaveTxn),
      ns.undepositedFunds = JSVal.str "F" →
      InstallLib.validatePaymentForDeposit (some ns) txn =
        { isValid := false
          error := some (Constants.ERRORS_PAYMENT_ALREADY_DEPOSITED ++
            " (Payment #" ++ ns.tranId ++ ")") }) ∧
    (∀ (ns : NsTransaction) (txn : WindcaveTxn),
      ¬ ns.undepositedFunds = JSVal.str "F" →
      mathAbs (ns.amount - txn.amount) > Constants.AMOUNT_TOLERANCE →
      InstallLib.validatePaymentForDeposit (some ns) txn =
        { isValid := false
          error := some (Constants.ERRORS_AMOUNT_MISMATCH ++
            " (NS: " ++ toString ns.amount ++ ", WC: " ++ toString txn.amount ++ ")") }) ∧
    (∀ (ns : NsTransaction) (txn : WindcaveTxn),
      ¬ ns.undepositedFunds = JSVal.str "F" →
      ¬ mathAbs (ns.amount - txn.amount) > Constants.AMOUNT_TOLERANCE →
      InstallLib.validatePaymentForDeposit (some ns) txn =
        { isValid := true, error := none }) := by
  refine ⟨fun txn => rfl, fun ns txn h => ?_, fun ns txn h h2 => ?_, fun ns txn h h2 => ?_⟩
  · simp only [InstallLib.validatePaymentForDeposit, if_pos h]
  · simp only [InstallLib.validatePaymentForDeposit, if_neg h, if_pos h2]
  · simp only [InstallLib.validatePaymentForDeposit, if_neg h, if_neg h2]

/-- Witness for C2: the four rules evaluated at concrete inputs. -/
theorem claim_C2_validator_rule_order_witness :
    ((JSVal.str "F") = JSVal.str "F" ∧
      InstallLib.validatePaymentForDeposit
        (some { internalId := "7", tranId := "1001", amount := 100,
                undepositedFunds := JSVal.str "F" })
        { id := "w1", merchantReference := "1001", amount := 100,
          type := "Purchase", authCode := "" } =
        { isValid := false
          error := some (Constants.ERRORS_PAYMENT_ALREADY_DEPOSITED ++
            " (Payment #" ++ "1001" ++ ")") }) ∧
    (InstallLib.validatePaymentForDeposit
        (some { internalId := "7", tranId := "1001", amount := 100,
                undepositedFunds := JSVal.str "T" })
        { id := "w1", merchantReference := "1001", amount := 100,
          type := "Purchase", authCode := "" } =
        { isValid := true, error := none }) :=
  ⟨⟨rfl, claim_C2_validator_rule_order.2.1
      { internalId := "7", tranId := "1001", amount := 100,
        undepositedFunds := JSVal.str "F" }
      { id := "w1", merchantReference := "1001", amount := 100,
        type := "Purchase", authCode := "" } rfl⟩,
    claim_C2_validator_rule_order.2.2.2
      { internalId := "7", tranId := "1001", amount := 100,
        undepositedFunds := JSVal.str "T" }
      { id := "w1", merchantReference := "1001", amount := 100,
        type := "Purchase", authCode := "" }
      (by decide)
      (by simp only [not_lt, mathAbs_eq_abs]; norm_num [Constants.AMOUNT_TOLERANCE])⟩

/-- Claim C3: for a non-null, still-undeposited entry, `validatePaymentForDeposit`
returns valid exactly when the absolute difference of the two amounts is at
most the single global tolerance constant, whose value is 0.01. -/
theorem claim_C3_tolerance_boundary :
    Constants.AMOUNT_TOLERANCE = 1 / 100 ∧
    ∀ (ns : NsTransaction) (txn : WindcaveTxn),
      ¬ ns.undepositedFunds = JSVal.str "F" →
      ((ReconLib.validatePaymentForDeposit (some ns) txn).isValid = true ↔
        |ns.amount - txn.amount| ≤ 1 / 100) := by
  refine ⟨rfl, fun ns txn h => ?_⟩
  simp only [ReconLib.validatePaymentForDeposit, if_neg h, mathAbs_eq_abs,
    Constants.AMOUNT_TOLERANCE]
  split_ifs with h2
  · simpa using h2.not_le
  · simpa using not_lt.mp h2

/-- Witness for C3: amounts differing by exactly 0.01 validate, amounts
differing by 0.0101 do not. -/
theorem claim_C3_tolerance_boundary_witness :
    ((ReconLib.validatePaymentForDeposit
        (some { internalId := "7", tranId := "1001", amount := 100,
                undepositedFunds := JSVal.str "T" })
        { id := "w1", merchantReference := "1001", amount := 100 + 1 / 100,
          type := "Purchase", authCode := "" }).isValid = true) ∧
    ((ReconLib.validatePaymentForDeposit
        (some { internalId := "7", tranId := "1001", amount := 100,
                undepositedFunds := JSVal.str "T" })
        { id := "w1", merchantReference := "1001", amount := 100 + 101 / 10000,
          type := "Purchase", authCode := "" }).isValid = false) := by
  constructor
  · exact (claim_C3_tolerance_boundary.2
      { internalId := "7", tranId := "1001", amount := 100,
        undepositedFunds := JSVal.str "T" }
      { id := "w1", merchantReference := "1001", amount := 100 + 1 / 100,
        type := "Purchase", authCode := "" } (by decide)).mpr (by
          rw [abs_le]
          constructor <;> norm_num)
  · have h := (claim_C3_tolerance_boundary.2
      { internalId := "7", tranId := "1001", amount := 100,
        undepositedFunds := JSVal.str "T" }
      { id := "w1", merchantReference := "1001", amount := 100 + 101 / 10000,
        type := "Purchase", authCode := "" } (by decide))
    have habs : ¬ |(100 : ℚ) - (100 + 101 / 10000)| ≤ 1 / 100 := by
      rw [abs_le, not_and_or]
      left
      norm_num
    cases hval : (ReconLib.validatePaymentForDeposit
        (some { internalId := "7", tranId := "1001", amount := 100,
                undepositedFunds := JSVal.str "T" })
        { id := "w1", merchantReference := "1001", amount := 100 + 101 / 10000,
          type := "Purchase", authCode := "" }).isValid
    · rfl
    · exact absurd (h.mp hval) habs

/-- Claim C10: the already-deposited rule fires exactly when the entry's
`undepositedFunds` field is the string `F`; any other value (string `T`, a
genuine boolean, the empty string, or an absent field) falls through to the
amount comparison. -/
theorem claim_C10_undepfunds_strict_equality :
    (∀ (ns : NsTransaction) (txn : WindcaveTxn),
      ns.undepositedFunds = JSVal.str "F" →
      ReconLib.validatePaymentForDeposit (some ns) txn =
        { isValid := false, error := some Constants.ERRORS_PAYMENT_ALREADY_DEPOSITED }) ∧
    (∀ (ns : NsTransaction) (txn : WindcaveTxn),
      ¬ ns.undepositedFunds = JSVal.str "F" →
      ReconLib.validatePaymentForDeposit (some ns) txn =
        (if mathAbs (ns.amount - txn.amount) > Constants.AMOUNT_TOLERANCE then
          { isValid := false
            error := some (Constants.ERRORS_AMOUNT_MISMATCH ++
              " (NS: " ++ toString ns.amount ++ ", WC: " ++ toString txn.amount ++ ")") }
        else { isValid := true, error := none })) := by
  refine ⟨fun ns txn h => ?_, fun ns txn h => ?_⟩
  · simp only [ReconLib.validatePaymentForDeposit, if_pos h]
  · simp only [ReconLib.validatePaymentForDeposit, if_neg h]

/-- Witness for C10: a boolean-`false` flag and an absent flag both fall
through to the amount comparison and validate on equal amounts. -/
theorem claim_C10_undepfunds_strict_equality_witness :
    (ReconLib.validatePaymentForDeposit
      (some { internalId := "7", tranId := "1001", amount := 100,
              undepositedFunds := JSVal.bool false })
      { id := "w1", merchantReference := "1001", amount := 100,
        type := "Purchase", authCode := "" } =
      (if mathAbs ((100 : ℚ) - 100) > Constants.AMOUNT_TOLERANCE then
        { isValid := false
          error := some (Constants.ERRORS_AMOUNT_MISMATCH ++
            " (NS: " ++ toString (100 : ℚ) ++ ", WC: " ++ toString (100 : ℚ) ++ ")") }
      else { isValid := true, error := none })) ∧
    (ReconLib.validatePaymentForDeposit
      (some { internalId := "7", tranId := "1001", amount := 100,
              undepositedFunds := JSVal.undef })
      { id := "w1", merchantReference := "1001", amount := 100,
        type := "Purchase", authCode := "" } =
      (if mathAbs ((100 : ℚ) - 100) > Constants.AMOUNT_TOLERANCE then
        { isValid := false
          error := some (Constants.ERRORS_AMOUNT_MISMATCH ++
            " (NS: " ++ toString (100 : ℚ) ++ ", WC: " ++ toString (100 : ℚ) ++ ")") }
      else { isValid := true, error := none })) :=
  ⟨claim_C10_undepfunds_strict_equality.2
      { internalId := "7", tranId := "1001", amount := 100,
        undepositedFunds := JSVal.bool false }
      { id := "w1", merchantReference := "1001", amount := 100,
        type := "Purchase", authCode := "" } (by decide),
    claim_C10_undepfunds_strict_equality.2
      { internalId := "7", tranId := "1001", amount := 100,
        undepositedFunds := JSVal.undef }
      { id := "w1", merchantReference := "1001", amount := 100,
        type := "Purchase", authCode := "" } (by decide)⟩

/-- Helper: on a refund transaction the loop body of `matchTransactions` only
creates the detail record and pushes the fixed unmatched entry; the ledger
lookup function is never consulted. -/
theorem processOneTxn_refund (findNS : String → Option NsTransaction)
    (sid : Nat) (txn : WindcaveTxn) (st : Store)
    (h : txn.type = Constants.TRANSACTION_TYPES_REFUND) :
    ReconLib.processOneTxn findNS sid txn st =
      ((ReconLib.createTransactionDetailRecord txn sid st).1,
       Sum.inr { txnDetailId := (ReconLib.createTransactionDetailRecord txn sid st).2,
                 windcaveTxn := txn,
                 error := "Refund transactions require manual handling" }) := by
  simp only [ReconLib.processOneTxn, if_pos h]

/-- Helper: a matched entry produced by the loop body carries the processed
transaction, and that transaction is not a refund. -/
theorem processOneTxn_inl (findNS : String → Option NsTransaction)
    (sid : Nat) (txn : WindcaveTxn) (st : Store) (m : ReconLib.MatchedEntry)
    (h : (ReconLib.processOneTxn findNS sid txn st).2 = Sum.inl m) :
    m.windcaveTxn = txn ∧ ¬ txn.type = Constants.TRANSACTION_TYPES_REFUND := by
  by_cases hr : txn.type = Constants.TRANSACTION_TYPES_REFUND
  · rw [processOneTxn_refund findNS sid txn st hr] at h
    simp at h
  · refine ⟨?_, hr⟩
    simp only [ReconLib.processOneTxn, if_neg hr] at h
    cases hf : findNS txn.merchantReference with
    | none =>
      simp only [hf] at h
      simp at h
    | some ns =>
      simp only [hf] at h
      by_cases hv : (ReconLib.validatePaymentForDeposit (some ns) txn).isValid = true
      · rw [if_pos hv] at h
        rw [← Sum.inl.inj h]
      · rw [if_neg hv] at h
        simp at h

/-- Helper: the refund facts of `matchTransactions`, by induction on the
transaction list. -/
theorem matchTransactions_refund_facts (findNS : String → Option NsTransaction)
    (sid : Nat) (txns : List WindcaveTxn) :
    ∀ st : Store,
      (∀ m ∈ (ReconLib.matchTransactions findNS txns sid st).2.1,
        ¬ m.windcaveTxn.type = Constants.TRANSACTION_TYPES_REFUND) ∧
      (∀ txn ∈ txns, txn.type = Constants.TRANSACTION_TYPES_REFUND →
        ∃ u ∈ (ReconLib.matchTransactions findNS txns sid st).2.2,
          u.windcaveTxn = txn ∧
          u.error = "Refund transactions require manual handling") := by
  induction txns with
  | nil =>
    intro st
    simp [ReconLib.matchTransactions]
  | cons t rest ih =>
    intro st
    simp only [ReconLib.matchTransactions]
    cases hstep : (ReconLib.processOneTxn findNS sid t st).2 with
    | inl m0 =>
      constructor
      · intro m hm
        simp only [List.mem_cons] at hm
        cases hm with
        | inl hm =>
          subst hm
          have hc := processOneTxn_inl findNS sid t st m hstep
          rw [hc.1]
          exact hc.2
        | inr hm =>
          exact (ih _).1 m hm
      · intro txn htxn hty
        simp only [List.mem_cons] at htxn
        cases htxn with
        | inl heq =>
          subst heq
          have hc := processOneTxn_inl findNS sid txn st m0 hstep
          exact absurd hty hc.2
        | inr hmem =>
          exact (ih _).2 txn hmem hty
    | inr u0 =>
      constructor
      · intro m hm
        exact (ih _).1 m hm
      · intro txn htxn hty
        simp only [List.mem_cons] at htxn
        cases htxn with
        | inl heq =>
          subst heq
          have hr := processOneTxn_refund findNS sid txn st hty
          have hu : u0 = { txnDetailId := (ReconLib.createTransactionDetailRecord txn sid st).2,
                           windcaveTxn := txn,
                           error := "Refund transactions require manual handling" } := by
            have := congrArg Prod.snd hr
            simp only [hstep] at this
            exact (Sum.inr.inj this.symm).symm
          refine ⟨u0, List.mem_cons_self _ _, ?_, ?_⟩
          · rw [hu]
          · rw [hu]
        | inr hmem =>
          obtain ⟨u, hu1, hu2, hu3⟩ := (ih _).2 txn hmem hty
          exact ⟨u, List.mem_cons_of_mem _ hu1, hu2, hu3⟩

/-- Claim C4: a refund transaction is always pushed to the unmatched list with
the fixed reason and never to the matched list; the loop body neither consults
the ledger lookup (its result is identical for any two lookup functions) nor
records a match for it. -/
theorem claim_C4_refund_exclusion :
    (∀ (findNS findNS2 : String → Option NsTransaction) (sid : Nat)
       (txn : WindcaveTxn) (st : Store),
      txn.type = Constants.TRANSACTION_TYPES_REFUND →
      ReconLib.processOneTxn findNS sid txn st =
        ((ReconLib.createTransactionDetailRecord txn sid st).1,
         Sum.inr { txnDetailId := (ReconLib.createTransactionDetailRecord txn sid st).2,
                   windcaveTxn := txn,
                   error := "Refund transactions require manual handling" }) ∧
      ReconLib.processOneTxn findNS sid txn st =
        ReconLib.processOneTxn findNS2 sid txn st) ∧
    (∀ (findNS : String → Option NsTransaction) (sid : Nat)
       (txns : List WindcaveTxn) (st : Store),
      (∀ m ∈ (ReconLib.matchTransactions findNS txns sid st).2.1,
        ¬ m.windcaveTxn.type = Constants.TRANSACTION_TYPES_REFUND) ∧
      (∀ txn ∈ txns, txn.type = Constants.TRANSACTION_TYPES_REFUND →
        ∃ u ∈ (ReconLib.matchTransactions findNS txns sid st).2.2,
          u.windcaveTxn = txn ∧
          u.error = "Refund transactions require manual handling")) := by
  constructor
  · intro findNS findNS2 sid txn st h
    refine ⟨processOneTxn_refund findNS sid txn st h, ?_⟩
    rw [processOneTxn_refund findNS sid txn st h,
        processOneTxn_refund findNS2 sid txn st h]
  · intro findNS sid txns st
    exact matchTransactions_refund_facts findNS sid txns st

/-- Witness for C4: a concrete refund transaction is unmatched with the fixed
reason, and the loop body behaves identically under two lookup functions that
disagree on every key. -/
theorem claim_C4_refund_exclusion_witness :
    (ReconLib.processOneTxn (fun _ => none) 0
      { id := "w9", merchantReference := "1001", amount := 20,
        type := "Refund", authCode := "A1" }
      { settlementRecords := [], txnDetails := [], deposits := [],
        undepositedPayments := [] } =
      ({ settlementRecords := [],
         txnDetails :=
           [{ parentSettlement := 0,
              txn := { id := "w9", merchantReference := "1001", amount := 20,
                       type := "Refund", authCode := "A1" },
              nsTransaction := none, matched := false, matchError := none,
              inDeposit := false, bankDeposit := none }],
         deposits := [],
         undepositedPayments := [] },
       Sum.inr { txnDetailId := 0,
                 windcaveTxn := { id := "w9", merchantReference := "1001",
                                  amount := 20, type := "Refund", authCode := "A1" },
                 error := "Refund transactions require manual handling" })) ∧
    ReconLib.processOneTxn (fun _ => none) 0
      { id := "w9", merchantReference := "1001", amount := 20,
        type := "Refund", authCode := "A1" }
      { settlementRecords := [], txnDetails := [], deposits := [],
        undepositedPayments := [] } =
    ReconLib.processOneTxn
      (fun _ => some { internalId := "5", tranId := "1001", amount := 20,
                       undepositedFunds := JSVal.str "T" }) 0
      { id := "w9", merchantReference := "1001", amount := 20,
        type := "Refund", authCode := "A1" }
      { settlementRecords := [], txnDetails := [], deposits := [],
        undepositedPayments := [] } := by
  have h := claim_C4_refund_exclusion.1 (fun _ => none)
    (fun _ => some { internalId := "5", tranId := "1001", amount := 20,
                     undepositedFunds := JSVal.str "T" }) 0
    { id := "w9", merchantReference := "1001", amount := 20,
      type := "Refund", authCode := "A1" }
    { settlementRecords := [], txnDetails := [], deposits := [],
      undepositedPayments := [] } rfl
  exact ⟨h.1, h.2⟩

/-- Helper: one unfolding of `makeRequest` when the current attempt returns a
5xx status and the retry budget is not exhausted: one busy-wait of
`RETRY_DELAY_MS * (retryCount + 1)` then a recursive retry. -/
theorem makeRequest_5xx_retry (resp : Nat → ApiModule.HttpOutcome) (r code : Nat)
    (body : String) (hr : resp r = ApiModule.HttpOutcome.response code body)
    (h5 : 500 ≤ code) (hlt : r < Constants.MAX_API_RETRIES) :
    ApiModule.makeRequest resp r =
      { result := (ApiModule.makeRequest resp (r + 1)).result
        attempts := (ApiModule.makeRequest resp (r + 1)).attempts + 1
        delays := Constants.RETRY_DELAY_MS * (r + 1) ::
          (ApiModule.makeRequest resp (r + 1)).delays } := by
  rw [ApiModule.makeRequest.eq_def]
  simp only [hr]
  rw [if_neg (by omega), if_neg (by omega), dif_pos ⟨h5, hlt⟩]

/-- Helper: a 5xx status with the retry budget exhausted throws the generic
request-failed error without further HTTP calls. -/
theorem makeRequest_5xx_stop (resp : Nat → ApiModule.HttpOutcome) (code : Nat)
    (body : String)
    (hr : resp Constants.MAX_API_RETRIES = ApiModule.HttpOutcome.response code body)
    (h5 : 500 ≤ code) :
    ApiModule.makeRequest resp Constants.MAX_API_RETRIES =
      { result := Except.error (ApiModule.ApiError.requestFailed code body)
        attempts := 1
        delays := [] } := by
  rw [ApiModule.makeRequest.eq_def]
  simp only [hr]
  rw [if_neg (by omega), if_neg (by omega), dif_neg (by omega)]

/-- Helper: one unfolding of `makeRequest` on a request timeout with retry
budget remaining: retry with no delay. -/
theorem makeRequest_timeout_retry (resp : Nat → ApiModule.HttpOutcome) (r : Nat)
    (hr : resp r = ApiModule.HttpOutcome.timeout)
    (hlt : r < Constants.MAX_API_RETRIES) :
    ApiModule.makeRequest resp r =
      { result := (ApiModule.makeRequest resp (r + 1)).result
        attempts := (ApiModule.makeRequest resp (r + 1)).attempts + 1
        delays := (ApiModule.makeRequest resp (r + 1)).delays } := by
  rw [ApiModule.makeRequest.eq_def]
  simp only [hr]
  rw [dif_pos hlt]

/-- Helper: a request timeout with the retry budget exhausted throws. -/
theorem makeRequest_timeout_stop (resp : Nat → ApiModule.HttpOutcome)
    (hr : resp Constants.MAX_API_RETRIES = ApiModule.HttpOutcome.timeout) :
    ApiModule.makeRequest resp Constants.MAX_API_RETRIES =
      { result := Except.error ApiModule.ApiError.timedOut
        attempts := 1
        delays := [] } := by
  rw [ApiModule.makeRequest.eq_def]
  simp only [hr]
  rw [dif_neg (by omega)]

/-- Claim C8: `makeRequest` returns the body for every 2xx status in one
attempt; throws the authentication error with no retry for 401/403; for a
persistent 5xx status makes `MAX_API_RETRIES + 1 = 4` HTTP calls with linearly
increasing delays (1s, 2s, 3s) before throwing the request-failed error;
retries a persistent request timeout up to the same cap before throwing; and
throws immediately on any other non-2xx status. -/
theorem claim_C8_retry_policy :
    (∀ (resp : Nat → ApiModule.HttpOutcome) (code : Nat) (body : String),
      resp 0 = ApiModule.HttpOutcome.response code body → 200 ≤ code → code < 300 →
      ApiModule.makeRequest resp 0 =
        { result := Except.ok body, attempts := 1, delays := [] }) ∧
    (∀ (resp : Nat → ApiModule.HttpOutcome) (code : Nat) (body : String),
      resp 0 = ApiModule.HttpOutcome.response code body → (code = 401 ∨ code = 403) →
      ApiModule.makeRequest resp 0 =
        { result := Except.error (ApiModule.ApiError.authFailed body)
          attempts := 1
          delays := [] }) ∧
    (∀ (resp : Nat → ApiModule.HttpOutcome) (code : Nat) (body : String),
      500 ≤ code → (∀ n, resp n = ApiModule.HttpOutcome.response code body) →
      ApiModule.makeRequest resp 0 =
        { result := Except.error (ApiModule.ApiError.requestFailed code body)
          attempts := Constants.MAX_API_RETRIES + 1
          delays := [Constants.RETRY_DELAY_MS * 1, Constants.RETRY_DELAY_MS * 2,
            Constants.RETRY_DELAY_MS * 3] }) ∧
    (∀ resp : Nat → ApiModule.HttpOutcome,
      (∀ n, resp n = ApiModule.HttpOutcome.timeout) →
      ApiModule.makeRequest resp 0 =
        { result := Except.error ApiModule.ApiError.timedOut
          attempts := Constants.MAX_API_RETRIES + 1
          delays := [] }) ∧
    (∀ (resp : Nat → ApiModule.HttpOutcome) (code : Nat) (body : String),
      resp 0 = ApiModule.HttpOutcome.response code body →
      ¬ (200 ≤ code ∧ code < 300) → ¬ (code = 401 ∨ code = 403) → code < 500 →
      ApiModule.makeRequest resp 0 =
        { result := Except.error (ApiModule.ApiError.requestFailed code body)
          attempts := 1
          delays := [] }) := by
  refine ⟨?_, ?_, ?_, ?_, ?_⟩
  · intro resp code body hr h1 h2
    rw [ApiModule.makeRequest.eq_def]
    simp only [hr]
    rw [if_pos ⟨h1, h2⟩]
  · intro resp code body hr hauth
    rw [ApiModule.makeRequest.eq_def]
    simp only [hr]
    rw [if_neg (by omega), if_pos hauth]
  · intro resp code body h5 hr
    have hm : Constants.MAX_API_RETRIES = 3 := rfl
    have e3 := makeRequest_5xx_stop resp code body (hr _) h5
    rw [hm] at e3
    have e2 := makeRequest_5xx_retry resp 2 code body (hr 2) h5 (by omega)
    have e1 := makeRequest_5xx_retry resp 1 code body (hr 1) h5 (by omega)
    have e0 := makeRequest_5xx_retry resp 0 code body (hr 0) h5 (by omega)
    rw [e0, e1, e2, e3]
    rw [hm]
  · intro resp hr
    have hm : Constants.MAX_API_RETRIES = 3 := rfl
    have e3 := makeRequest_timeout_stop resp (hr _)
    rw [hm] at e3
    have e2 := makeRequest_timeout_retry resp 2 (hr 2) (by omega)
    have e1 := makeRequest_timeout_retry resp 1 (hr 1) (by omega)
    have e0 := makeRequest_timeout_retry resp 0 (hr 0) (by omega)
    rw [e0, e1, e2, e3]
    rw [hm]
  · intro resp code body hr h2xx hauth h5
    rw [ApiModule.makeRequest.eq_def]
    simp only [hr]
    rw [if_neg h2xx, if_neg hauth, dif_neg (by omega)]

/-- Witness for C8: the five branches of the retry policy evaluated on
concrete network behaviours. -/
theorem claim_C8_retry_policy_witness :
    (ApiModule.makeRequest (fun _ => ApiModule.HttpOutcome.response 200 "OK") 0 =
      { result := Except.ok "OK", attempts := 1, delays := [] }) ∧
    (ApiModule.makeRequest (fun _ => ApiModule.HttpOutcome.response 401 "denied") 0 =
      { result := Except.error (ApiModule.ApiError.authFailed "denied")
        attempts := 1
        delays := [] }) ∧
    (ApiModule.makeRequest (fun _ => ApiModule.HttpOutcome.response 500 "boom") 0 =
      { result := Except.error (ApiModule.ApiError.requestFailed 500 "boom")
        attempts := Constants.MAX_API_RETRIES + 1
        delays := [Constants.RETRY_DELAY_MS * 1, Constants.RETRY_DELAY_MS * 2,
          Constants.RETRY_DELAY_MS * 3] }) ∧
    (ApiModule.makeRequest (fun _ => ApiModule.HttpOutcome.timeout) 0 =
      { result := Except.error ApiModule.ApiError.timedOut
        attempts := Constants.MAX_API_RETRIES + 1
        delays := [] }) ∧
    (ApiModule.makeRequest (fun _ => ApiModule.HttpOutcome.response 404 "missing") 0 =
      { result := Except.error (ApiModule.ApiError.requestFailed 404 "missing")
        attempts := 1
        delays := [] }) :=
  ⟨claim_C8_retry_policy.1 _ 200 "OK" rfl (by omega) (by omega),
   claim_C8_retry_policy.2.1 _ 401 "denied" rfl (Or.inl rfl),
   claim_C8_retry_policy.2.2.1 _ 500 "boom" (by omega) (fun _ => rfl),
   claim_C8_retry_policy.2.2.2.1 _ (fun _ => rfl),
   claim_C8_retry_policy.2.2.2.2 _ 404 "missing" rfl (by omega) (by omega) (by omega)⟩

set_option maxHeartbeats 1000000 in
/-- Claim C6: the auth-code / external-id fallback is consulted only when the
reference lookup misses and at least one key is present; the candidate query is
bounded to a window of 10; a sole candidate is accepted unconditionally; among
several candidates the first within the global tolerance is accepted; several
candidates none of which is within tolerance yield `none`. -/
theorem claim_C6_authcode_fallback :
    (∀ (refLookup : String → Option NsTransaction)
       (ledger : List InstallLib.PaymentRecord) (txn : WindcaveTxn)
       (ns : NsTransaction),
      refLookup txn.merchantReference = some ns →
      InstallLib.locateEntry refLookup ledger txn = some ns) ∧
    (∀ (refLookup : String → Option NsTransaction)
       (ledger : List InstallLib.PaymentRecord) (txn : WindcaveTxn),
      refLookup txn.merchantReference = none →
      txn.authCode = "" → txn.id = "" →
      InstallLib.locateEntry refLookup ledger txn = none) ∧
    (∀ (refLookup : String → Option NsTransaction)
       (ledger : List InstallLib.PaymentRecord) (txn : WindcaveTxn),
      refLookup txn.merchantReference = none →
      (¬ txn.authCode = "" ∨ ¬ txn.id = "") →
      InstallLib.locateEntry refLookup ledger txn =
        InstallLib.findNetSuiteTransactionByAuthCode ledger txn.authCode txn.amount txn.id) ∧
    (∀ (ledger : List InstallLib.PaymentRecord) (authCode transactionId : String),
      (InstallLib.queryByAuthCode ledger authCode transactionId).length ≤ 10) ∧
    (∀ (ledger : List InstallLib.PaymentRecord) (authCode transactionId : String)
       (amount : ℚ),
      ¬ (authCode.trim = "" ∧ transactionId.trim = "") →
      InstallLib.findNetSuiteTransactionByAuthCode ledger authCode amount transactionId =
        InstallLib.selectCandidate (InstallLib.queryByAuthCode ledger authCode transactionId)
          amount) ∧
    (∀ (amount : ℚ) (r : InstallLib.PaymentRecord),
      InstallLib.withinTolerance amount r = true ↔
        mathAbs (r.amount - amount) ≤ Constants.AMOUNT_TOLERANCE) ∧
    (∀ (r : InstallLib.PaymentRecord) (amount : ℚ),
      InstallLib.selectCandidate [r] amount = some (InstallLib.toNsTransaction r)) ∧
    (∀ (results : List InstallLib.PaymentRecord) (amount : ℚ)
       (r : InstallLib.PaymentRecord),
      1 < results.length →
      results.find? (InstallLib.withinTolerance amount) = some r →
      InstallLib.selectCandidate results amount = some (InstallLib.toNsTransaction r)) ∧
    (∀ (results : List InstallLib.PaymentRecord) (amount : ℚ),
      1 < results.length →
      (∀ r ∈ results, ¬ InstallLib.withinTolerance amount r = true) →
      InstallLib.selectCandidate results amount = none) := by
  refine ⟨?_, ?_, ?_, ?_, ?_, ?_, ?_, ?_, ?_⟩
  · intro refLookup ledger txn ns h
    simp only [InstallLib.locateEntry, h]
  · intro refLookup ledger txn h ha hid
    simp only [InstallLib.locateEntry, h, ha, hid]
    simp
  · intro refLookup ledger txn h hkey
    simp only [InstallLib.locateEntry, h]
    rw [if_pos hkey]
  · intro ledger authCode transactionId
    simp only [InstallLib.queryByAuthCode, List.length_take]
    exact min_le_left _ _
  · intro ledger authCode transactionId amount h
    simp only [InstallLib.findNetSuiteTransactionByAuthCode, if_neg h]
  · intro amount r
    exact Iff.intro (fun h => of_decide_eq_true h) (fun h => decide_eq_true h)
  · intro r amount
    simp only [InstallLib.selectCandidate]
    rw [if_neg (by simp)]
    by_cases hp : InstallLib.withinTolerance amount r = true
    · rw [List.find?_cons_of_pos [] hp]
    · rw [List.find?_cons_of_neg [] hp, List.find?_nil]
  · intro results amount r hlen hfind
    have hne : ¬ results.isEmpty = true := by
      rw [List.isEmpty_iff]
      intro h
      subst h
      simp at hlen
    simp only [InstallLib.selectCandidate]
    rw [if_neg hne, hfind]
  · intro results amount hlen hnone
    have hne : ¬ results.isEmpty = true := by
      rw [List.isEmpty_iff]
      intro h
      subst h
      simp at hlen
    have hfind : results.find? (InstallLib.withinTolerance amount) = none := by
      rw [List.find?_eq_none]
      exact hnone
    simp only [InstallLib.selectCandidate]
    rw [if_neg hne, hfind]
    cases results with
    | nil => simp at hlen
    | cons a rest =>
      cases rest with
      | nil => simp at hlen
      | cons b rest2 => rfl

set_option maxHeartbeats 1000000 in
/-- Witness for C6: the fallback gates and selection rules applied to concrete
ledgers and transactions. -/
theorem claim_C6_authcode_fallback_witness :
    (InstallLib.locateEntry
      (fun _ => some { internalId := "9", tranId := "1009", amount := 50,
                       undepositedFunds := JSVal.str "T" })
      [] { id := "w2", merchantReference := "1009", amount := 50,
           type := "Purchase", authCode := "AC1" } =
      some { internalId := "9", tranId := "1009", amount := 50,
             undepositedFunds := JSVal.str "T" }) ∧
    (InstallLib.locateEntry (fun _ => none) []
      { id := "", merchantReference := "x", amount := 50,
        type := "Purchase", authCode := "" } = none) ∧
    (InstallLib.selectCandidate
      [{ internalId := "3", tranId := "1003", amount := 77,
         accountName := "Undeposited Funds", authCode := "AC1", pnref := "w2" }] 50 =
      some (InstallLib.toNsTransaction
        { internalId := "3", tranId := "1003", amount := 77,
          accountName := "Undeposited Funds", authCode := "AC1", pnref := "w2" })) ∧
    (InstallLib.selectCandidate
      [{ internalId := "3", tranId := "1003", amount := 50,
         accountName := "Undeposited Funds", authCode := "AC1", pnref := "w2" },
       { internalId := "4", tranId := "1004", amount := 50,
         accountName := "Undeposited Funds", authCode := "AC1", pnref := "w3" }] 50 =
      some (InstallLib.toNsTransaction
        { internalId := "3", tranId := "1003", amount := 50,
          accountName := "Undeposited Funds", authCode := "AC1", pnref := "w2" })) ∧
    (InstallLib.selectCandidate
      [{ internalId := "3", tranId := "1003", amount := 70,
         accountName := "Undeposited Funds", authCode := "AC1", pnref := "w2" },
       { internalId := "4", tranId := "1004", amount := 80,
         accountName := "Undeposited Funds", authCode := "AC1", pnref := "w3" }] 50 =
      none) := by
  refine ⟨?_, ?_, ?_, ?_, ?_⟩
  · exact claim_C6_authcode_fallback.1
      (fun _ => some { internalId := "9", tranId := "1009", amount := 50,
                       undepositedFunds := JSVal.str "T" })
      [] { id := "w2", merchantReference := "1009", amount := 50,
           type := "Purchase", authCode := "AC1" } _ rfl
  · exact claim_C6_authcode_fallback.2.1 (fun _ => none) []
      { id := "", merchantReference := "x", amount := 50,
        type := "Purchase", authCode := "" } rfl rfl rfl
  · exact claim_C6_authcode_fallback.2.2.2.2.2.2.1
      { internalId := "3", tranId := "1003", amount := 77,
        accountName := "Undeposited Funds", authCode := "AC1", pnref := "w2" } 50
  · exact claim_C6_authcode_fallback.2.2.2.2.2.2.2.1 _ 50
      { internalId := "3", tranId := "1003", amount := 50,
        accountName := "Undeposited Funds", authCode := "AC1", pnref := "w2" }
      (by simp)
      (List.find?_cons_of_pos _ (decide_eq_true (by
        norm_num [mathAbs, Constants.AMOUNT_TOLERANCE])))
  · exact claim_C6_authcode_fallback.2.2.2.2.2.2.2.2 _ 50 (by simp)
      (by
        intro r hr
        simp only [List.mem_cons, List.not_mem_nil, or_false] at hr
        intro hc
        have hval := of_decide_eq_true hc
        rcases hr with rfl | rfl <;>
          revert hval <;>
          norm_num [mathAbs, Constants.AMOUNT_TOLERANCE])

/-- Helper: membership in `addEmail`. -/
theorem mem_addEmail (acc : List String) (e a : String) :
    a ∈ Scheduled.addEmail acc e ↔ a ∈ acc ∨ a = e := by
  by_cases h : e ∈ acc
  · simp only [Scheduled.addEmail]
    rw [if_pos (by simp [h])]
    exact ⟨Or.inl, fun ha => ha.elim id (fun hae => hae ▸ h)⟩
  · simp only [Scheduled.addEmail]
    rw [if_neg (by simp [h])]
    simp

/-- Helper: `addEmail` preserves the no-duplicates invariant of the
JavaScript `Set`. -/
theorem nodup_addEmail (acc : List String) (e : String) (h : acc.Nodup) :
    (Scheduled.addEmail acc e).Nodup := by
  by_cases hc : e ∈ acc
  · simp only [Scheduled.addEmail]
    rw [if_pos (by simp [hc])]
    exact h
  · simp only [Scheduled.addEmail]
    rw [if_neg (by simp [hc])]
    simp [List.nodup_append, h, hc]

/-- Helper: the email-collection fold keeps the accumulator duplicate-free and
collects exactly the configured addresses. -/
theorem collectEmails_go (configs : List Scheduled.Config) :
    ∀ acc : List String, acc.Nodup →
      (configs.foldl (fun acc c =>
        match c.notificationEmail with
        | some e => Scheduled.addEmail acc e
        | none => acc) acc).Nodup ∧
      (∀ a, a ∈ configs.foldl (fun acc c =>
        match c.notificationEmail with
        | some e => Scheduled.addEmail acc e
        | none => acc) acc ↔
        a ∈ acc ∨ ∃ c ∈ configs, c.notificationEmail = some a) := by
  induction configs with
  | nil =>
    intro acc hacc
    simp [hacc]
  | cons c rest ih =>
    intro acc hacc
    simp only [List.foldl_cons]
    cases hc : c.notificationEmail with
    | none =>
      obtain ⟨h1, h2⟩ := ih acc hacc
      refine ⟨h1, fun a => ?_⟩
      rw [h2 a]
      simp only [List.mem_cons]
      constructor
      · rintro (ha | ⟨d, hd, hda⟩)
        · exact Or.inl ha
        · exact Or.inr ⟨d, Or.inr hd, hda⟩
      · rintro (ha | ⟨d, (rfl | hd), hda⟩)
        · exact Or.inl ha
        · rw [hc] at hda
          cases hda
        · exact Or.inr ⟨d, hd, hda⟩
    | some e =>
      obtain ⟨h1, h2⟩ := ih (Scheduled.addEmail acc e) (nodup_addEmail acc e hacc)
      refine ⟨h1, fun a => ?_⟩
      rw [h2 a, mem_addEmail]
      simp only [List.mem_cons]
      constructor
      · rintro ((ha | rfl) | ⟨d, hd, hda⟩)
        · exact Or.inl ha
        · exact Or.inr ⟨c, Or.inl rfl, hc⟩
        · exact Or.inr ⟨d, Or.inr hd, hda⟩
      · rintro (ha | ⟨d, (rfl | hd), hda⟩)
        · exact Or.inl (Or.inl ha)
        · rw [hc] at hda
          exact Or.inl (Or.inr (Option.some.inj hda).symm)
        · exact Or.inr ⟨d, hd, hda⟩

/-- Claim C9: within one run the notification addresses form a set, so at most
one summary email goes to each distinct configured address (an address is sent
to exactly when some configuration carries it); the body contains the
`Results by Configuration` breakdown exactly when more than one configuration
result was recorded. -/
theorem claim_C9_notification_dedup :
    (∀ (configs : List Scheduled.Config) (addr : String),
      (Scheduled.collectNotificationEmails configs).count addr ≤ 1) ∧
    (∀ (configs : List Scheduled.Config) (addr : String),
      addr ∈ Scheduled.collectNotificationEmails configs ↔
        ∃ c ∈ configs, c.notificationEmail = some addr) ∧
    (∀ r : Scheduled.SummaryResults,
      Scheduled.EmailSection.configBreakdown ∈ Scheduled.buildEmailBody r ↔
        1 < r.configResults.length) := by
  refine ⟨?_, ?_, ?_⟩
  · intro configs addr
    have h := (collectEmails_go configs [] List.nodup_nil).1
    exact List.nodup_iff_count_le_one.mp h addr
  · intro configs addr
    have h := (collectEmails_go configs [] List.nodup_nil).2 addr
    simpa [Scheduled.collectNotificationEmails] using h
  · intro r
    by_cases h : 1 < r.configResults.length <;>
      simp only [Scheduled.buildEmailBody, if_pos, if_neg, h, if_true, if_false] <;>
      split_ifs <;>
      simp [h]

/-- Helper: the per-transaction deposit-linkage writes touch only
`txnDetails`. -/
theorem foldl_updateTxnDetail (ids : List Nat) (g : TxnDetail → TxnDetail) :
    ∀ st : Store,
      (ids.foldl (fun s i => ReconLib.updateTxnDetail s i g) st).settlementRecords =
        st.settlementRecords ∧
      (ids.foldl (fun s i => ReconLib.updateTxnDetail s i g) st).deposits = st.deposits ∧
      (ids.foldl (fun s i => ReconLib.updateTxnDetail s i g) st).undepositedPayments =
        st.undepositedPayments := by
  induction ids with
  | nil =>
    intro st
    exact ⟨rfl, rfl, rfl⟩
  | cons i rest ih =>
    intro st
    simpa only [List.foldl_cons, ReconLib.updateTxnDetail] using
      ih { st with txnDetails := modifyAt st.txnDetails i g }

/-- Claim C5: when the matched-entry set is disjoint from the store's
currently-undeposited payment set, `createBankDeposit` returns `null` and the
store is untouched (no deposit saved, no in-deposit flag or deposit reference
written); deposit-linkage writes happen only on the branch that saved a
deposit with at least one included payment. -/
theorem claim_C5_deposit_intersection_safety :
    (∀ (settlementData : Settlement) (matchedTransactions : List ReconLib.MatchedEntry)
       (bankAccountId : String) (st : Store),
      (∀ p ∈ st.undepositedPayments, ∀ m ∈ matchedTransactions,
        ¬ m.nsTransaction.internalId = p) →
      ReconLib.createBankDeposit settlementData matchedTransactions bankAccountId st =
        (st, none)) ∧
    (∀ (settlementData : Settlement) (matchedTransactions : List ReconLib.MatchedEntry)
       (bankAccountId : String) (st : Store),
      (ReconLib.createBankDeposit settlementData matchedTransactions bankAccountId st).2 =
        none →
      (ReconLib.createBankDeposit settlementData matchedTransactions bankAccountId st).1 =
        st) ∧
    (∀ (settlementData : Settlement) (matchedTransactions : List ReconLib.MatchedEntry)
       (bankAccountId : String) (st : Store) (d : Nat),
      (ReconLib.createBankDeposit settlementData matchedTransactions bankAccountId st).2 =
        some d →
      ∃ dep : DepositRecord,
        ((ReconLib.createBankDeposit settlementData matchedTransactions bankAccountId
            st).1).deposits = st.deposits ++ [dep] ∧
        ¬ dep.payments = []) := by
  have hsel : ∀ (matchedTransactions : List ReconLib.MatchedEntry) (st : Store),
      (∀ p ∈ st.undepositedPayments, ∀ m ∈ matchedTransactions,
        ¬ m.nsTransaction.internalId = p) →
      st.undepositedPayments.filter (fun paymentId =>
        (matchedTransactions.find?
          (fun m => m.nsTransaction.internalId = paymentId)).isSome) = [] := by
    intro mts st hdisj
    rw [List.filter_eq_nil_iff]
    intro p hp
    have hfind : mts.find? (fun m => m.nsTransaction.internalId = p) = none := by
      rw [List.find?_eq_none]
      intro m hm
      exact fun hc => hdisj p hp m hm (of_decide_eq_true hc)
    simp [hfind]
  refine ⟨?_, ?_, ?_⟩
  · intro sd mts acct st hdisj
    by_cases hemp : mts.isEmpty
    · simp only [ReconLib.createBankDeposit, if_pos hemp]
    · simp only [ReconLib.createBankDeposit, if_neg hemp]
      rw [hsel mts st hdisj]
      simp
  · intro sd mts acct st
    by_cases hemp : mts.isEmpty
    · simp only [ReconLib.createBankDeposit, if_pos hemp]
      intro _
      trivial
    · simp only [ReconLib.createBankDeposit, if_neg hemp]
      by_cases hz : (st.undepositedPayments.filter (fun paymentId =>
          (mts.find? (fun m => m.nsTransaction.internalId = paymentId)).isSome)).length = 0
      · rw [if_pos hz]
        intro _
        trivial
      · rw [if_neg hz]
        intro hc
        simp at hc
  · intro sd mts acct st d
    by_cases hemp : mts.isEmpty
    · simp only [ReconLib.createBankDeposit, if_pos hemp]
      intro hc
      simp at hc
    · simp only [ReconLib.createBankDeposit, if_neg hemp]
      by_cases hz : (st.undepositedPayments.filter (fun paymentId =>
          (mts.find? (fun m => m.nsTransaction.internalId = paymentId)).isSome)).length = 0
      · rw [if_pos hz]
        intro hc
        simp at hc
      · rw [if_neg hz]
        intro _
        refine ⟨{ account := acct,
                  memo := "Windcave Settlement " ++ sd.referenceNumber ++
                    " (" ++ sd.id ++ ")",
                  payments := st.undepositedPayments.filter (fun paymentId =>
                    (mts.find?
                      (fun m => m.nsTransaction.internalId = paymentId)).isSome) }, ?_, ?_⟩
        · rw [(foldl_updateTxnDetail _ _ _).2.1]
        · intro hnil
          have hft : st.undepositedPayments.filter (fun paymentId =>
              (mts.find? (fun m => m.nsTransaction.internalId = paymentId)).isSome) =
              [] := hnil
          rw [hft] at hz
          simp at hz

/-- Witness for C5: a matched entry whose payment is absent from the
undeposited set leaves the store untouched and yields `null`. -/
theorem claim_C5_deposit_intersection_safety_witness :
    ReconLib.createBankDeposit
      { id := "S1", status := "Done", CRDR := "CR", amount := 100,
        referenceNumber := "R1", transactions := [] }
      [{ txnDetailId := 0,
         windcaveTxn := { id := "w1", merchantReference := "7", amount := 100,
                          type := "Purchase", authCode := "" },
         nsTransaction := { internalId := "7", tranId := "1007", amount := 100,
                            undepositedFunds := JSVal.str "T" } }]
      "acct1"
      { settlementRecords := [], txnDetails := [], deposits := [],
        undepositedPayments := ["5"] } =
      ({ settlementRecords := [], txnDetails := [], deposits := [],
         undepositedPayments := ["5"] }, none) :=
  claim_C5_deposit_intersection_safety.1
    { id := "S1", status := "Done", CRDR := "CR", amount := 100,
      referenceNumber := "R1", transactions := [] }
    [{ txnDetailId := 0,
       windcaveTxn := { id := "w1", merchantReference := "7", amount := 100,
                        type := "Purchase", authCode := "" },
       nsTransaction := { internalId := "7", tranId := "1007", amount := 100,
                          undepositedFunds := JSVal.str "T" } }]
    "acct1"
    { settlementRecords := [], txnDetails := [], deposits := [],
      undepositedPayments := ["5"] }
    (by decide)

/-- Claim C7: `createSupplementaryDeposit` surfaces both failure modes as
structured errors with no store change: the fixed no-pending message when no
Transaction Detail of the settlement is matched and not yet in a deposit, and
the already-deposited-elsewhere message when pending entries exist but none
intersects the undeposited payment set. -/
theorem claim_C7_supplementary_failures :
    (∀ (st : Store) (sid : Nat) (p : Nat × TxnDetail),
      p ∈ ReconLib.getMatchedNotDepositedTransactions st sid ↔
        p ∈ st.txnDetails.enum ∧ p.2.parentSettlement = sid ∧ p.2.matched = true ∧
          p.2.inDeposit = false) ∧
    (∀ (sid : Nat) (acct : String) (st : Store) (settlement : SettlementRec),
      ReconLib.getSettlementById st sid = some settlement →
      ReconLib.getMatchedNotDepositedTransactions st sid = [] →
      ReconLib.createSupplementaryDeposit sid acct st =
        (st, ReconLib.SuppResult.failure "No matched transactions pending deposit")) ∧
    (∀ (sid : Nat) (acct : String) (st : Store) (settlement : SettlementRec),
      ReconLib.getSettlementById st sid = some settlement →
      ¬ ReconLib.getMatchedNotDepositedTransactions st sid = [] →
      (∀ p ∈ st.undepositedPayments,
        ∀ t ∈ ReconLib.getMatchedNotDepositedTransactions st sid,
          ¬ t.2.nsTransaction = some p) →
      ReconLib.createSupplementaryDeposit sid acct st =
        (st, ReconLib.SuppResult.failure
          "No payments found in undeposited funds. Payments may have already been deposited elsewhere.")) := by
  refine ⟨?_, ?_, ?_⟩
  · intro st sid p
    simp [ReconLib.getMatchedNotDepositedTransactions, List.mem_filter, and_assoc]
  · intro sid acct st settlement hset hpend
    simp only [ReconLib.createSupplementaryDeposit, hset, hpend]
    simp
  · intro sid acct st settlement hset hpend hdisj
    have hne : ¬ (ReconLib.getMatchedNotDepositedTransactions st sid).isEmpty = true := by
      rw [List.isEmpty_iff]
      exact hpend
    have hsel : st.undepositedPayments.filterMap (fun paymentId =>
        ((ReconLib.getMatchedNotDepositedTransactions st sid).find?
          (fun t => t.2.nsTransaction = some paymentId)).map
            (fun t => (paymentId, t.1))) = [] := by
      rw [List.filterMap_eq_nil_iff]
      intro p hp
      have hfind : (ReconLib.getMatchedNotDepositedTransactions st sid).find?
          (fun t => t.2.nsTransaction = some p) = none := by
        rw [List.find?_eq_none]
        intro t ht
        exact fun hc => hdisj p hp t ht (of_decide_eq_true hc)
      rw [hfind]
      rfl
    simp only [ReconLib.createSupplementaryDeposit, hset]
    rw [if_neg hne, hsel]
    simp

/-- Witness for C7: both failure modes on concrete stores. -/
theorem claim_C7_supplementary_failures_witness :
    (ReconLib.createSupplementaryDeposit 0 "acct1"
      { settlementRecords :=
          [{ settlementId := "S1", referenceNumber := "R1", matchedCount := 0,
             unmatchedCount := 0, matchedAmount := 0, processed := true,
             bankDeposit := none, errorMessage := none }],
        txnDetails := [], deposits := [], undepositedPayments := ["5"] } =
      ({ settlementRecords :=
           [{ settlementId := "S1", referenceNumber := "R1", matchedCount := 0,
              unmatchedCount := 0, matchedAmount := 0, processed := true,
              bankDeposit := none, errorMessage := none }],
         txnDetails := [], deposits := [], undepositedPayments := ["5"] },
       ReconLib.SuppResult.failure "No matched transactions pending deposit")) ∧
    (ReconLib.createSupplementaryDeposit 0 "acct1"
      { settlementRecords :=
          [{ settlementId := "S1", referenceNumber := "R1", matchedCount := 1,
             unmatchedCount := 0, matchedAmount := 100, processed := true,
             bankDeposit := none, errorMessage := none }],
        txnDetails :=
          [{ parentSettlement := 0,
             txn := { id := "w1", merchantReference := "7", amount := 100,
                      type := "Purchase", authCode := "" },
             nsTransaction := some "7", matched := true, matchError := none,
             inDeposit := false, bankDeposit := none }],
        deposits := [], undepositedPayments := ["5"] } =
      ({ settlementRecords :=
           [{ settlementId := "S1", referenceNumber := "R1", matchedCount := 1,
              unmatchedCount := 0, matchedAmount := 100, processed := true,
              bankDeposit := none, errorMessage := none }],
         txnDetails :=
           [{ parentSettlement := 0,
              txn := { id := "w1", merchantReference := "7", amount := 100,
                       type := "Purchase", authCode := "" },
              nsTransaction := some "7", matched := true, matchError := none,
              inDeposit := false, bankDeposit := none }],
         deposits := [], undepositedPayments := ["5"] },
       ReconLib.SuppResult.failure
         "No payments found in undeposited funds. Payments may have already been deposited elsewhere.")) :=
  ⟨claim_C7_supplementary_failures.2.1 0 "acct1"
    { settlementRecords :=
        [{ settlementId := "S1", referenceNumber := "R1", matchedCount := 0,
           unmatchedCount := 0, matchedAmount := 0, processed := true,
           bankDeposit := none, errorMessage := none }],
      txnDetails := [], deposits := [], undepositedPayments := ["5"] }
    { settlementId := "S1", referenceNumber := "R1", matchedCount := 0,
      unmatchedCount := 0, matchedAmount := 0, processed := true,
      bankDeposit := none, errorMessage := none }
    rfl rfl,
   claim_C7_supplementary_failures.2.2 0 "acct1"
    { settlementRecords :=
        [{ settlementId := "S1", referenceNumber := "R1", matchedCount := 1,
           unmatchedCount := 0, matchedAmount := 100, processed := true,
           bankDeposit := none, errorMessage := none }],
      txnDetails :=
        [{ parentSettlement := 0,
           txn := { id := "w1", merchantReference := "7", amount := 100,
                    type := "Purchase", authCode := "" },
           nsTransaction := some "7", matched := true, matchError := none,
           inDeposit := false, bankDeposit := none }],
      deposits := [], undepositedPayments := ["5"] }
    { settlementId := "S1", referenceNumber := "R1", matchedCount := 1,
      unmatchedCount := 0, matchedAmount := 100, processed := true,
      bankDeposit := none, errorMessage := none }
    rfl (by decide) (by decide)⟩

/-- Helper: the match-loop body never touches the settlement records. -/
theorem processOneTxn_settlementRecords (findNS : String → Option NsTransaction)
    (sid : Nat) (txn : WindcaveTxn) (st : Store) :
    ((ReconLib.processOneTxn findNS sid txn st).1).settlementRecords =
      st.settlementRecords := by
  simp only [ReconLib.processOneTxn]
  by_cases hr : txn.type = Constants.TRANSACTION_TYPES_REFUND
  · rw [if_pos hr]
    rfl
  · rw [if_neg hr]
    cases hf : findNS txn.merchantReference with
    | none =>
      simp only [hf]
      rfl
    | some ns =>
      simp only [hf]
      by_cases hv : (ReconLib.validatePaymentForDeposit (some ns) txn).isValid = true
      · rw [if_pos hv]
        rfl
      · rw [if_neg hv]
        rfl

/-- Helper: `matchTransactions` never touches the settlement records. -/
theorem matchTransactions_settlementRecords (findNS : String → Option NsTransaction)
    (txns : List WindcaveTxn) (sid : Nat) :
    ∀ st : Store,
      ((ReconLib.matchTransactions findNS txns sid st).1).settlementRecords =
        st.settlementRecords := by
  induction txns with
  | nil =>
    intro st
    rfl
  | cons t rest ih =>
    intro st
    simp only [ReconLib.matchTransactions]
    cases hstep : (ReconLib.processOneTxn findNS sid t st).2 with
    | inl m =>
      simp only [hstep]
      rw [ih _, processOneTxn_settlementRecords]
    | inr u =>
      simp only [hstep]
      rw [ih _, processOneTxn_settlementRecords]

/-- Helper: `createBankDeposit` never touches the settlement records. -/
theorem createBankDeposit_settlementRecords (sd : Settlement)
    (mts : List ReconLib.MatchedEntry) (acct : String) (st : Store) :
    ((ReconLib.createBankDeposit sd mts acct st).1).settlementRecords =
      st.settlementRecords := by
  by_cases hemp : mts.isEmpty
  · simp only [ReconLib.createBankDeposit, if_pos hemp]
  · simp only [ReconLib.createBankDeposit, if_neg hemp]
    by_cases hz : (st.undepositedPayments.filter (fun paymentId =>
        (mts.find? (fun m => m.nsTransaction.internalId = paymentId)).isSome)).length = 0
    · rw [if_pos hz]
    · rw [if_neg hz]
      rw [(foldl_updateTxnDetail _ _ _).1]

/-- Helper: rewriting one settlement record in place with a field update that
keeps its Windcave id does not change the per-id record count. -/
theorem countFilter_modifyAt (E : String) (f : SettlementRec → SettlementRec)
    (hf : ∀ r, (f r).settlementId = r.settlementId) :
    ∀ (l : List SettlementRec) (i : Nat),
      ((modifyAt l i f).filter (fun r => r.settlementId = E)).length =
        (l.filter (fun r => r.settlementId = E)).length := by
  intro l
  induction l with
  | nil =>
    intro i
    rfl
  | cons x xs ih =>
    intro i
    cases i with
    | zero =>
      by_cases hp : x.settlementId = E
      · simp [modifyAt, List.filter_cons, hf x, hp]
      · simp [modifyAt, List.filter_cons, hf x, hp]
    | succ n =>
      by_cases hp : x.settlementId = E
      · simp [modifyAt, List.filter_cons, hp, ih n]
      · simp [modifyAt, List.filter_cons, hp, ih n]

/-- Helper: `updateSettlementRecord` does not change the per-id record count. -/
theorem updateSettlementRecord_count (st : Store) (sid mc uc : Nat) (ma : ℚ)
    (bd : Option Nat) (em : Option String) (E : String) :
    Scheduled.settlementRecordCount
      (ReconLib.updateSettlementRecord st sid mc uc ma bd em) E =
      Scheduled.settlementRecordCount st E := by
  simp only [Scheduled.settlementRecordCount, ReconLib.updateSettlementRecord]
  apply countFilter_modifyAt
  intro r
  rfl

/-- Helper: the conditional deposit step of `processSettlementBody` does not
change the per-id record count. -/
theorem depositBranch_count (c : Prop) [Decidable c] (sd : Settlement)
    (mts : List ReconLib.MatchedEntry) (acct : String) (st2 : Store) (E : String) :
    Scheduled.settlementRecordCount
      ((if c then ReconLib.createBankDeposit sd mts acct st2 else (st2, none)).1) E =
      Scheduled.settlementRecordCount st2 E := by
  split_ifs with h
  · simp only [Scheduled.settlementRecordCount, createBankDeposit_settlementRecords]
  · rfl

/-- Helper: an unprocessed Windcave id has no persisted settlement record. -/
theorem count_eq_zero_of_not_processed (st : Store) (sid : String)
    (h : ReconLib.isSettlementProcessed st sid = false) :
    Scheduled.settlementRecordCount st sid = 0 := by
  rw [ReconLib.isSettlementProcessed, List.any_eq_false] at h
  simp only [Scheduled.settlementRecordCount, List.length_eq_zero,
    List.filter_eq_nil_iff]
  exact h

/-- Helper: the non-skip branch adds exactly one settlement record, carrying
the processed settlement's Windcave id. -/
theorem processSettlementBody_count (findNS : String → Option NsTransaction)
    (acct : String) (s : Settlement) (st : Store) (results : Scheduled.RunResults)
    (E : String) :
    Scheduled.settlementRecordCount
      ((Scheduled.processSettlementBody findNS acct s st results).1) E =
      Scheduled.settlementRecordCount st E + (if s.id = E then 1 else 0) := by
  simp only [Scheduled.processSettlementBody]
  rw [updateSettlementRecord_count, depositBranch_count]
  simp only [Scheduled.settlementRecordCount, matchTransactions_settlementRecords]
  simp only [ReconLib.createSettlementRecord, List.filter_append]
  by_cases hp : s.id = E
  · simp [List.filter_cons, hp]
  · simp [List.filter_cons, hp]

/-- Helper: one `processSettlement` call keeps the per-id count at or below
one. -/
theorem processSettlement_count (findNS : String → Option NsTransaction)
    (acct : String) (s : Settlement) (st : Store) (results : Scheduled.RunResults)
    (E : String) (h : Scheduled.settlementRecordCount st E ≤ 1) :
    Scheduled.settlementRecordCount
      ((Scheduled.processSettlement findNS acct s st results).1) E ≤ 1 := by
  simp only [Scheduled.processSettlement]
  by_cases h1 : ¬ s.status = Constants.SETTLEMENT_STATUS_DONE
  · rw [if_pos h1]
    exact h
  · rw [if_neg h1]
    by_cases h2 : ReconLib.isSettlementProcessed st s.id = true
    · rw [if_pos h2]
      exact h
    · rw [if_neg h2]
      rw [processSettlementBody_count]
      by_cases hid : s.id = E
      · have h0 : Scheduled.settlementRecordCount st s.id = 0 :=
          count_eq_zero_of_not_processed st s.id (Bool.not_eq_true _ ▸ eq_false_of_ne_true h2)
        rw [← hid, h0]
        simp [hid]
      · simp [hid]
        exact h

/-- Helper: the per-settlement loop keeps the per-id count at or below one. -/
theorem runSettlements_count (findNS : String → Option NsTransaction)
    (acct : String) (settlements : List Settlement) :
    ∀ (st : Store) (results : Scheduled.RunResults) (E : String),
      Scheduled.settlementRecordCount st E ≤ 1 →
      Scheduled.settlementRecordCount
        ((Scheduled.runSettlements findNS acct settlements st results).1) E ≤ 1 := by
  induction settlements with
  | nil =>
    intro st results E h
    exact h
  | cons s rest ih =>
    intro st results E h
    simp only [Scheduled.runSettlements]
    exact ih _ _ E (processSettlement_count findNS acct s st results E h)

/-- Claim C1: `processSettlement` persists a settlement record only when the
settlement's status is `Done` and no record with the same Windcave id exists;
a settlement skipped for either reason counts as skipped with the store and
error list untouched; a freshly processed settlement ends with exactly one
record for its id; and across any number of coordinator runs (overlapping
date ranges included) every Windcave id keeps at most one persisted
settlement record. -/
theorem claim_C1_at_most_once :
    (∀ (findNS : String → Option NsTransaction) (acct : String) (s : Settlement)
       (st : Store) (results : Scheduled.RunResults),
      (¬ s.status = Constants.SETTLEMENT_STATUS_DONE ∨
        ReconLib.isSettlementProcessed st s.id = true) →
      Scheduled.processSettlement findNS acct s st results =
        (st, { results with settlementsSkipped := results.settlementsSkipped + 1 },
         none)) ∧
    (∀ (findNS : String → Option NsTransaction) (acct : String) (s : Settlement)
       (st : Store) (results : Scheduled.RunResults),
      s.status = Constants.SETTLEMENT_STATUS_DONE →
      ReconLib.isSettlementProcessed st s.id = false →
      Scheduled.settlementRecordCount
        ((Scheduled.processSettlement findNS acct s st results).1) s.id = 1) ∧
    (∀ (findNS : String → Option NsTransaction) (acct : String)
       (runs : List (List Settlement)) (st : Store) (E : String),
      Scheduled.settlementRecordCount st E ≤ 1 →
      Scheduled.settlementRecordCount
        (Scheduled.runMany findNS acct runs st) E ≤ 1) := by
  refine ⟨?_, ?_, ?_⟩
  · intro findNS acct s st results h
    cases h with
    | inl hns =>
      simp only [Scheduled.processSettlement]
      rw [if_pos hns]
    | inr hp =>
      by_cases hst : s.status = Constants.SETTLEMENT_STATUS_DONE
      · simp only [Scheduled.processSettlement]
        rw [if_neg (not_not_intro hst), if_pos hp]
      · simp only [Scheduled.processSettlement]
        rw [if_pos hst]
  · intro findNS acct s st results hdone hnew
    simp only [Scheduled.processSettlement]
    rw [if_neg (not_not_intro hdone), if_neg (by simp [hnew]),
        processSettlementBody_count, count_eq_zero_of_not_processed st s.id hnew]
    simp
  · intro findNS acct runs
    induction runs with
    | nil =>
      intro st E h
      exact h
    | cons settlements rest ih =>
      intro st E h
      simp only [Scheduled.runMany]
      exact ih _ E (runSettlements_count findNS acct settlements st
        Scheduled.emptyResults E h)

/-- Witness for C1: a non-`Done` settlement is skipped with store and errors
untouched; a fresh `Done` settlement ends with exactly one record; running the
coordinator twice over the same settlement keeps the count at one. -/
theorem claim_C1_at_most_once_witness :
    (Scheduled.processSettlement (fun _ => none) "acct1"
        { id := "S1", status := "Pending", CRDR := "CR", amount := 10,
          referenceNumber := "R1", transactions := [] }
        { settlementRecords := [], txnDetails := [], deposits := [],
          undepositedPayments := [] } Scheduled.emptyResults =
      ({ settlementRecords := [], txnDetails := [], deposits := [],
         undepositedPayments := [] },
       { Scheduled.emptyResults with
          settlementsSkipped := Scheduled.emptyResults.settlementsSkipped + 1 },
       none)) ∧
    (Scheduled.settlementRecordCount
      ((Scheduled.processSettlement (fun _ => none) "acct1"
        { id := "S1", status := "Done", CRDR := "CR", amount := 10,
          referenceNumber := "R1", transactions := [] }
        { settlementRecords := [], txnDetails := [], deposits := [],
          undepositedPayments := [] } Scheduled.emptyResults).1) "S1" = 1) ∧
    (Scheduled.settlementRecordCount
      (Scheduled.runMany (fun _ => none) "acct1"
        [[{ id := "S1", status := "Done", CRDR := "CR", amount := 10,
            referenceNumber := "R1", transactions := [] }],
         [{ id := "S1", status := "Done", CRDR := "CR", amount := 10,
            referenceNumber := "R1", transactions := [] }]]
        { settlementRecords := [], txnDetails := [], deposits := [],
          undepositedPayments := [] }) "S1" ≤ 1) :=
  ⟨claim_C1_at_most_once.1 (fun _ => none) "acct1"
      { id := "S1", status := "Pending", CRDR := "CR", amount := 10,
        referenceNumber := "R1", transactions := [] }
      { settlementRecords := [], txnDetails := [], deposits := [],
        undepositedPayments := [] } Scheduled.emptyResults (Or.inl (by decide)),
   claim_C1_at_most_once.2.1 (fun _ => none) "acct1"
      { id := "S1", status := "Done", CRDR := "CR", amount := 10,
        referenceNumber := "R1", transactions := [] }
      { settlementRecords := [], txnDetails := [], deposits := [],
        undepositedPayments := [] } Scheduled.emptyResults rfl rfl,
   claim_C1_at_most_once.2.2 (fun _ => none) "acct1"
      [[{ id := "S1", status := "Done", CRDR := "CR", amount := 10,
          referenceNumber := "R1", transactions := [] }],
       [{ id := "S1", status := "Done", CRDR := "CR", amount := 10,
          referenceNumber := "R1", transactions := [] }]]
      { settlementRecords := [], txnDetails := [], deposits := [],
        undepositedPayments := [] } "S1" (by decide)⟩

end Windcave
